import Mathlib

/-!
Verification development for the `crossover-activity` HTTP middleware
(telemetry variant, package `crossover_activity`) and its companion
`crossover` plugin (request-logger and rate-limit variants).

The Go sources are shallowly embedded: request bodies are `List Char`
(resp. `List Nat` for raw bytes), the bounded channel is a `List` with an
explicit capacity, the background aggregator is a step function on an
explicit state, and calls to remote HTTP services are modelled by their
observable result (an `Option` holding the fetched value on success).
-/

/-! ### Model of `encoding/json`: decoding a body into `[]interface{}`

`json.NewDecoder(body).Decode(&requests)` with `requests : []interface{}`
succeeds exactly when the first JSON value in the stream is an array, and
then yields its elements.  The decoder is modelled as a fuel-indexed
recursive parser over the character list; `decodeJsonArrayLen` returns
`some n` when the body starts (after whitespace) with a syntactically valid
JSON array of `n` elements, and `none` when decoding would return an error
(syntax error, or a top-level value that is not an array).  Escape
sequences inside strings are modelled as a backslash skipping the next
character (the `\uXXXX` digit check of the Go decoder is not modelled). -/

def jsonWs (c : Char) : Bool :=
  c = ' ' ∨ c = '\t' ∨ c = '\n' ∨ c = '\r'

def skipWs : List Char → List Char
  | [] => []
  | c :: cs => if jsonWs c then skipWs cs else c :: cs

def isDigit (c : Char) : Bool :=
  48 ≤ c.toNat ∧ c.toNat ≤ 57

def dropDigits : List Char → List Char
  | [] => []
  | c :: cs => if isDigit c then dropDigits cs else c :: cs

/-- Integer part of a JSON number: `0` or a nonzero digit followed by digits. -/
def parseIntPart : List Char → Option (List Char)
  | [] => none
  | c :: r =>
    if c = '0' then some r
    else if isDigit c then some (dropDigits r)
    else none

/-- Optional fraction part `.digits`. -/
def parseFracPart : List Char → Option (List Char)
  | '.' :: r =>
    match r with
    | c :: _ => if isDigit c then some (dropDigits r) else none
    | [] => none
  | cs => some cs

/-- Optional exponent part `[eE][+-]?digits`. -/
def parseExpPart : List Char → Option (List Char)
  | [] => some []
  | c :: r =>
    if c = 'e' ∨ c = 'E' then
      let r2 := match r with
        | s :: t => if s = '+' ∨ s = '-' then t else s :: t
        | [] => []
      match r2 with
      | d :: _ => if isDigit d then some (dropDigits r2) else none
      | [] => none
    else some (c :: r)

/-- A JSON number: optional minus, integer part, fraction, exponent. -/
def parseNumber (cs : List Char) : Option (List Char) := do
  let cs1 := match cs with
    | '-' :: r => r
    | _ => cs
  let r1 ← parseIntPart cs1
  let r2 ← parseFracPart r1
  parseExpPart r2

/-- Remainder of a JSON string after the opening quote: a backslash skips
the next character, an unescaped quote closes the string. -/
def parseStringRest : List Char → Option (List Char)
  | [] => none
  | '\\' :: [] => none
  | '\\' :: _ :: r => parseStringRest r
  | '"' :: r => some r
  | _ :: r => parseStringRest r

mutual

/-- One JSON value; returns the remaining input.  Fuel bounds the nesting
recursion (callers pass at least `input.length + 2`). -/
def parseValue : Nat → List Char → Option (List Char)
  | 0, _ => none
  | Nat.succ fuel, cs =>
    match skipWs cs with
    | '"' :: r => parseStringRest r
    | '\x7b' :: r => parseObjectBody fuel r
    | '[' :: r => (parseArrayBody fuel r).map Prod.snd
    | 't' :: 'r' :: 'u' :: 'e' :: r => some r
    | 'f' :: 'a' :: 'l' :: 's' :: 'e' :: r => some r
    | 'n' :: 'u' :: 'l' :: 'l' :: r => some r
    | other => parseNumber other

/-- Body of an array after `[`: returns the element count and the rest. -/
def parseArrayBody : Nat → List Char → Option (Nat × List Char)
  | 0, _ => none
  | Nat.succ fuel, cs =>
    match skipWs cs with
    | ']' :: r => some (0, r)
    | other =>
      match parseValue fuel other with
      | none => none
      | some rest => parseArrayTail fuel 1 rest

/-- After an array element: `]` closes, `,` continues with the next value. -/
def parseArrayTail : Nat → Nat → List Char → Option (Nat × List Char)
  | 0, _, _ => none
  | Nat.succ fuel, n, cs =>
    match skipWs cs with
    | ']' :: r => some (n, r)
    | ',' :: r =>
      match parseValue fuel r with
      | none => none
      | some rest => parseArrayTail fuel (n + 1) rest
    | _ => none

/-- Body of an object after the opening brace. -/
def parseObjectBody : Nat → List Char → Option (List Char)
  | 0, _ => none
  | Nat.succ fuel, cs =>
    match skipWs cs with
    | '\x7d' :: r => some r
    | '"' :: r =>
      match parseStringRest r with
      | none => none
      | some rest => parseMemberValue fuel rest
    | _ => none

/-- After an object member key: `:` then the member value. -/
def parseMemberValue : Nat → List Char → Option (List Char)
  | 0, _ => none
  | Nat.succ fuel, cs =>
    match skipWs cs with
    | ':' :: r =>
      match parseValue fuel r with
      | none => none
      | some rest => parseObjectTail fuel rest
    | _ => none

/-- After an object member: closing brace ends, `,` continues with a key. -/
def parseObjectTail : Nat → List Char → Option (List Char)
  | 0, _ => none
  | Nat.succ fuel, cs =>
    match skipWs cs with
    | '\x7d' :: r => some r
    | ',' :: r =>
      match skipWs r with
      | '"' :: r2 =>
        match parseStringRest r2 with
        | none => none
        | some rest => parseMemberValue fuel rest
      | _ => none
    | _ => none

end

/-- Result of `Decode(&requests)` with `requests : []interface{}`:
`some n` iff the body's first JSON value is an array of `n` elements. -/
def decodeJsonArrayLen (body : List Char) : Option Nat :=
  match skipWs body with
  | '[' :: r => (parseArrayBody (body.length + 2) r).map Prod.fst
  | _ => none

/-! ### Observable effects of `requestCount`

Both revisions of `requestCount` inspect the `Content-Type` header and the
body.  `readBody` records that the decoder read from the body at all;
`drained` records that the `io.Copy(io.Discard, req.Body)` statement ran;
`closed` records that `req.Body.Close()` ran. -/

structure CountEffect where
  count : Nat
  readBody : Bool
  drained : Bool
  closed : Bool
deriving DecidableEq, Repr

namespace CrossoverActivity

/-- Constants of the second revision of the `crossover_activity` package. -/
def MaxRequestBodySize : Nat := 2 * 1024 * 1024

def DefaultLogBufferSize : Int := 100000

def DefaultMaxBatchSize : Int := 20

def DefaultBatchFlushInterval : Int := 2

/-- Plugin configuration (`Config`); the three size/interval fields are Go
`int`s, modelled as `Int`. -/
structure Config where
  Pattern : String
  RemoteAddress : String
  APIKey : String
  BufferSize : Int
  BatchSize : Int
  FlushInterval : Int
deriving DecidableEq, Repr

/-- The constructed handler state (`Activity`); the `http.Client`, the
channel value itself and the compiled pattern are not data the claims
inspect, so the handler keeps the configured sizes and strings.
`regexp.MustCompile` is treated as opaque (it panics on a syntactically
invalid pattern instead of returning an error; pattern validity is outside
this model). -/
structure Activity where
  bufferSize : Int
  batchSize : Int
  flushInterval : Int
  pattern : String
  remoteAddress : String
  apiKey : String
deriving DecidableEq, Repr

/-- `New` (second revision): validates the three required strings, then
substitutes defaults for zero-valued sizes, mirroring lines 277-315. -/
def New (config : Config) : Except String Activity :=
  if config.APIKey.length = 0 then .error "APIKey can\x27t be empty"
  else if config.Pattern.length = 0 then .error "pattern can\x27t be empty"
  else if config.RemoteAddress.length = 0 then .error "RemoteAddress can\x27t be empty"
  else
    let bufferSize := if config.BufferSize = 0 then DefaultLogBufferSize else config.BufferSize
    let batchSize := if config.BatchSize = 0 then DefaultMaxBatchSize else config.BatchSize
    let flushInterval := if config.FlushInterval = 0 then DefaultBatchFlushInterval else config.FlushInterval
    .ok { bufferSize := bufferSize, batchSize := batchSize, flushInterval := flushInterval,
          pattern := config.Pattern, remoteAddress := config.RemoteAddress,
          apiKey := config.APIKey }

/-- Whether `New` returned the error case (no handler constructed). -/
def newIsError : Except String Activity → Bool
  | .error _ => true
  | .ok _ => false

/-- A log entry (`activityRequestDto`): `request_id` and a count. -/
structure activityRequestDto where
  RequestId : String
  Count : Nat
deriving DecidableEq, Repr

/-! #### Producer side: the non-blocking channel send of `ServeHTTP`

`select { case a.logsChannel <- logEntry: default: log.Printf(...) }` on a
channel of capacity `bufferSize`.  The channel content is the list of
pending entries, oldest first. -/

/-- Non-blocking send: insert if below capacity, otherwise drop (second
component is `true` when the entry was dropped and the drop logged). -/
def sendNonBlocking (bufferSize : Nat) (q : List activityRequestDto)
    (e : activityRequestDto) : List activityRequestDto × Bool :=
  if q.length < bufferSize then (q ++ [e], false) else (q, true)

/-- Observable outcome of the enqueue-and-forward tail of `ServeHTTP`
(lines 343-350): the new channel content, whether a drop was logged, and
whether the request was forwarded to the downstream handler. -/
structure EnqueueStep where
  queue : List activityRequestDto
  droppedLogged : Bool
  forwarded : Bool
deriving DecidableEq, Repr

/-- The enqueue-and-forward tail of `ServeHTTP`: the send never waits and
`a.next.ServeHTTP` runs unconditionally afterwards. -/
def serveEnqueue (bufferSize : Nat) (q : List activityRequestDto)
    (e : activityRequestDto) : EnqueueStep :=
  let r := sendNonBlocking bufferSize q e
  { queue := r.1, droppedLogged := r.2, forwarded := true }

/-! #### Body interception of `ServeHTTP` (lines 317-335)

`io.CopyN(buf, req.Body, MaxRequestBodySize)` followed by rebuilding
`req.Body` and the cloned request's body from `buf.Bytes()`.  Bodies are
byte lists; a pure list source can only fail with end-of-stream, which the
code tolerates (`err != io.EOF`), so the 500 branch for other read errors
is unreachable in this model. -/

/-- `io.CopyN(dst, src, n)` observable result: the bytes copied, and
whether the returned error was `io.EOF` (source shorter than `n`). -/
def copyN (src : List Nat) (n : Nat) : List Nat × Bool :=
  if src.length < n then (src, true) else (src.take n, false)

/-- The two readable copies made from the pooled buffer. -/
structure InterceptedBody where
  downstreamBody : List Nat
  telemetryBody : List Nat
deriving DecidableEq, Repr

/-- Body interception: one bounded copy into the buffer, then both the
downstream request body and the cloned telemetry body are fresh readers
over the buffer's bytes. -/
def interceptBody (body : List Nat) : InterceptedBody :=
  let buf := (copyN body MaxRequestBodySize).1
  { downstreamBody := buf, telemetryBody := buf }

/-! #### The aggregator (`batchProcessor`, lines 354-373)

State: the current batch and the remaining time (in abstract units, one
unit per `tick` event) until `flushTimer` fires.  `recv e` models the
channel-receive case of the `select`; `tick` models one time unit
elapsing, with the timer branch of the `select` running when the
remaining time reaches zero.  The second component of a step is the batch
handed to `flushLogs`, when a flush happened. -/

structure AggState where
  batch : List activityRequestDto
  timer : Nat
deriving DecidableEq, Repr

inductive AggEvent where
  | recv (e : activityRequestDto)
  | tick
deriving DecidableEq, Repr

/-- One iteration of the `batchProcessor` loop, with `batchSize` and
`flushInterval` as configured.  On `recv`: append, and flush when the
batch has reached `batchSize` (the timer is not touched).  On the timer
firing: flush only a nonempty batch, and reset the timer to the full
interval regardless. -/
def aggStep (batchSize flushInterval : Nat) (s : AggState) :
    AggEvent → AggState × Option (List activityRequestDto)
  | .recv e =>
    let b := s.batch ++ [e]
    if batchSize ≤ b.length then ({ batch := [], timer := s.timer }, some b)
    else ({ batch := b, timer := s.timer }, none)
  | .tick =>
    if s.timer ≤ 1 then
      if 0 < s.batch.length then ({ batch := [], timer := flushInterval }, some s.batch)
      else ({ batch := s.batch, timer := flushInterval }, none)
    else ({ batch := s.batch, timer := s.timer - 1 }, none)

/-- A run of the aggregator from its initial state (empty batch, timer
freshly set to the full interval, as `time.NewTimer` does), collecting the
flushed batches in order. -/
def aggRun (batchSize flushInterval : Nat) (evs : List AggEvent) :
    AggState × List (List activityRequestDto) :=
  evs.foldl
    (fun acc ev =>
      let r := aggStep batchSize flushInterval acc.1 ev
      (r.1, match r.2 with
        | none => acc.2
        | some f => acc.2 ++ [f]))
    ({ batch := [], timer := flushInterval }, [])

/-- `requestCount` (second revision, lines 420-440): non-JSON content
types short-circuit to 1 without touching the body; otherwise the body is
decoded as an array, then drained and closed unconditionally, and a decode
failure falls back to 1. -/
def requestCount (contentType : String) (body : List Char) : CountEffect :=
  if contentType ≠ "application/json" then
    { count := 1, readBody := false, drained := false, closed := false }
  else
    match decodeJsonArrayLen body with
    | some n => { count := n, readBody := true, drained := true, closed := true }
    | none => { count := 1, readBody := true, drained := true, closed := true }

end CrossoverActivity

namespace Crossover

/-- `requestCount` (first revision, `plugin.go` lines 151-171): same
dispatch, but a decode failure returns 0 immediately, before the
drain-and-close statements run. -/
def requestCount (contentType : String) (body : List Char) : CountEffect :=
  if contentType ≠ "application/json" then
    { count := 1, readBody := false, drained := false, closed := false }
  else
    match decodeJsonArrayLen body with
    | some n => { count := n, readBody := true, drained := true, closed := true }
    | none => { count := 0, readBody := true, drained := false, closed := false }

/-! #### Rate-limit variant (`RequestCrossover`) -/

/-- Per-user record: `planLimit` and `usage` are Go `int64`. -/
structure limitUsage where
  planLimit : Int
  usage : Int
deriving DecidableEq, Repr

/-- The process-wide `userUsageLimit` map, as an association list keyed by
the canonical user id string. -/
abbrev UserMap := List (String × limitUsage)

def lookupUser : UserMap → String → Option limitUsage
  | [], _ => none
  | (k, v) :: rest, u => if k = u then some v else lookupUser rest u

/-- Go map assignment `userUsageLimit[userId] = v`: replace an existing
key's value, or add the key. -/
def insertUser : UserMap → String → limitUsage → UserMap
  | [], u, v => [(u, v)]
  | (k, w) :: rest, u, v =>
    if k = u then (u, v) :: rest else (k, w) :: insertUser rest u v

/-- A character matched by the default pattern class `[a-z0-9]`. -/
def patChar (c : Char) : Bool :=
  (97 ≤ c.toNat ∧ c.toNat ≤ 122) ∨ (48 ≤ c.toNat ∧ c.toNat ≤ 57)

/-- Leftmost match of the default request-id pattern `([a-z0-9]{42})`:
the first position with 42 consecutive class characters. -/
def findRun42 : List Char → Option (List Char)
  | [] => none
  | c :: cs =>
    if ((c :: cs).take 42).length = 42 ∧ ((c :: cs).take 42).all patChar
    then some ((c :: cs).take 42)
    else findRun42 cs

/-- `requestKey(pattern, path)` instantiated at the default pattern
`([a-z0-9]{42})`: the leftmost match, or `""` when
`FindStringSubmatch` returns no match. -/
def requestKey (path : String) : String :=
  match findRun42 path.toList with
  | none => ""
  | some m => String.mk m

def isHexDigit (c : Char) : Bool :=
  (48 ≤ c.toNat ∧ c.toNat ≤ 57) ∨ (97 ≤ c.toNat ∧ c.toNat ≤ 102) ∨
    (65 ≤ c.toNat ∧ c.toNat ≤ 70)

/-- Insert the canonical `8-4-4-4-12` hyphens into 32 hex characters. -/
def hyphenate (l : List Char) : List Char :=
  l.take 8 ++ '-' :: (l.drop 8).take 4 ++ '-' :: (l.drop 12).take 4 ++
    '-' :: (l.drop 16).take 4 ++ '-' :: l.drop 20

/-- Model of `uuid.Parse` followed by `.String()`: accepts the 32-hex-digit
form and the 36-character hyphenated form, returning the canonical
lowercase hyphenated string.  The `urn:uuid:` and braced forms accepted by
the library are omitted (a match of the default 42-character pattern always
yields a 32-character tail). -/
def uuidParse (s : String) : Option String :=
  let cs := s.toList
  if cs.length = 32 then
    if cs.all isHexDigit then some (String.mk (hyphenate (cs.map Char.toLower)))
    else none
  else if cs.length = 36 then
    let core := cs.take 8 ++ ((cs.drop 9).take 4) ++ ((cs.drop 14).take 4) ++
      ((cs.drop 19).take 4) ++ cs.drop 24
    if cs.get? 8 = some '-' ∧ cs.get? 13 = some '-' ∧ cs.get? 18 = some '-' ∧
        cs.get? 23 = some '-' ∧ core.all isHexDigit
    then some (String.mk (hyphenate (core.map Char.toLower)))
    else none
  else none

/-- Observable outcome of `RequestCrossover.ServeHTTP` for one request:
a Go runtime error from slicing `requestId[10:]` when the key is shorter
than 10 bytes, a written rejection response (status and body), or the
request forwarded to `a.next`. -/
inductive ServeOutcome where
  | sliceOutOfRange
  | rejected (status : Nat) (body : String)
  | forwarded
deriving DecidableEq, Repr

/-- `RateLimitPlan` (lines 318-362): `fetched` is the observable result of
the remote `GET`/decode pipeline (`none` for any transport, status or
unmarshal failure, each of which returns before the map is touched;
`some lim` for a successful fetch of `response["data"]["request_limit"]`).
On success: a missing user gets a fresh record with `usage = 0`, an
existing user keeps its `usage` and gets the fresh `planLimit`. -/
def RateLimitPlan (fetched : Option Int) (m : UserMap) (userId : String) : UserMap :=
  match fetched with
  | none => m
  | some lim =>
    match lookupUser m userId with
    | none => insertUser m userId { planLimit := lim, usage := 0 }
    | some v => insertUser m userId { planLimit := lim, usage := v.usage }

/-- `RequestCrossover.ServeHTTP` (lines 261-288) at the default pattern:
extract the request key, slice off its first 10 bytes (a Go panic when the
key is shorter), parse the rest as a UUID (400 on failure), then the
admission check: unknown users trigger a synchronous `RateLimitPlan` and
are forwarded; known users are rejected with 429 when `usage > planLimit`
and otherwise have their usage incremented and are forwarded.  (The
fire-and-forget `RateLimitStore` call and the `X-UUId` header do not touch
the map or the outcome and are not modelled.) -/
def ServeHTTP (fetched : Option Int) (m : UserMap) (path : String) :
    UserMap × ServeOutcome :=
  let requestId := requestKey path
  if requestId.length < 10 then (m, .sliceOutOfRange)
  else
    match uuidParse (requestId.drop 10) with
    | none => (m, .rejected 400 "invalid requestId")
    | some userId =>
      match lookupUser m userId with
      | none => (RateLimitPlan fetched m userId, .forwarded)
      | some v =>
        if v.usage > v.planLimit then (m, .rejected 429 "too many requests")
        else (insertUser m userId { planLimit := v.planLimit, usage := v.usage + 1 },
              .forwarded)

end Crossover

/-! ### Concrete inputs used in witnesses and counterexamples -/

def e1 : CrossoverActivity.activityRequestDto := { RequestId := "a", Count := 1 }

def e2 : CrossoverActivity.activityRequestDto := { RequestId := "b", Count := 1 }

/-- A path whose single default-pattern match is a 42-character token whose
tail (after the 10-byte prefix) is a 32-hex-digit UUID. -/
def path0 : String := "/v1/abcdef0123550e8400e29b41d4a716446655440000"

/-- The canonical user id extracted from `path0`. -/
def uid0 : String := "550e8400-e29b-41d4-a716-446655440000"

/-- The spec example body: a three-element JSON array of objects. -/
def jsonExample3 : List Char := "[\x7b\"a\":1\x7d,\x7b\"b\":2\x7d,\x7b\"c\":3\x7d]".toList

/-- A single JSON object: valid JSON, but not an array. -/
def jsonSingleObject : List Char := "\x7b\"a\":1\x7d".toList

/-- A body that is not valid JSON at all. -/
def undecodableBody : List Char := "oops".toList

/-- A body of exactly the 2 MiB ceiling length. -/
def bigBody : List Nat := List.replicate CrossoverActivity.MaxRequestBodySize 0

def cfg0 : CrossoverActivity.Config :=
  { Pattern := "p", RemoteAddress := "r", APIKey := "k",
    BufferSize := 0, BatchSize := 0, FlushInterval := 0 }

def act0 : CrossoverActivity.Activity :=
  { bufferSize := 100000, batchSize := 20, flushInterval := 2,
    pattern := "p", remoteAddress := "r", apiKey := "k" }

def m1 : Crossover.UserMap :=
  [("u", { planLimit := 3, usage := 7 }), ("w", { planLimit := 1, usage := 1 })]

/-! ### Helper lemmas about the user map -/

/-- Looking up the key just assigned yields the assigned value. -/
theorem lookupUser_insertUser_self (m : Crossover.UserMap) (k : String)
    (v : Crossover.limitUsage) :
    Crossover.lookupUser (Crossover.insertUser m k v) k = some v := by
  induction m with
  | nil => simp [Crossover.insertUser, Crossover.lookupUser]
  | cons hd tl ih =>
    obtain ⟨a, b⟩ := hd
    by_cases h : a = k
    · simp [Crossover.insertUser, Crossover.lookupUser, h]
    · simp [Crossover.insertUser, Crossover.lookupUser, h, ih]

/-- Assigning one key leaves every other key's lookup unchanged. -/
theorem lookupUser_insertUser_ne (m : Crossover.UserMap) (k u : String)
    (v : Crossover.limitUsage) (h : u ≠ k) :
    Crossover.lookupUser (Crossover.insertUser m k v) u = Crossover.lookupUser m u := by
  induction m with
  | nil => simp [Crossover.insertUser, Crossover.lookupUser, Ne.symm h]
  | cons hd tl ih =>
    obtain ⟨a, b⟩ := hd
    by_cases hak : a = k
    · subst hak
      simp [Crossover.insertUser, Crossover.lookupUser, Ne.symm h]
    · by_cases hau : a = u
      · simp [Crossover.insertUser, Crossover.lookupUser, hak, hau, h]
      · simp [Crossover.insertUser, Crossover.lookupUser, hak, hau, ih]

/-! ### C1 — aggregator flush discipline -/

/-- C1 (counterexample): on a run of the aggregator from the empty batch
with `BatchSize = 2` and `FlushInterval = 3`, one time unit passes and
then two entries arrive.  The size-triggered flush of `[e1, e2]` happens,
but the post-flush timer still holds 2 remaining units, not the full
interval 3: a size-triggered flush does not reset the flush timer. -/
theorem c1_size_flush_does_not_reset_timer :
    CrossoverActivity.aggRun 2 3 [.tick, .recv e1, .recv e2] =
      ({ batch := [], timer := 2 }, [[e1, e2]]) ∧ (2 : Nat) ≠ 3 := by decide

/-- C1 (amended): in each iteration of `batchProcessor`, a flush happens
on an entry arrival exactly when the batch reaches `BatchSize`, and on a
timer expiry exactly when the batch is nonempty; every flush leaves the
batch empty and flushes a nonempty batch; an entry arrival never changes
the timer (so a size-triggered flush does not reset it), while a timer
expiry always resets the timer to the full interval, flush or not. -/
theorem c1_flush_discipline (bs iv : Nat) (s : CrossoverActivity.AggState) :
    (∀ e, ((CrossoverActivity.aggStep bs iv s (.recv e)).2.isSome = true ↔
        bs ≤ s.batch.length + 1) ∧
      (CrossoverActivity.aggStep bs iv s (.recv e)).1.timer = s.timer) ∧
    (((CrossoverActivity.aggStep bs iv s .tick).2.isSome = true ↔
        s.timer ≤ 1 ∧ 0 < s.batch.length) ∧
      (s.timer ≤ 1 → (CrossoverActivity.aggStep bs iv s .tick).1.timer = iv) ∧
      (1 < s.timer → (CrossoverActivity.aggStep bs iv s .tick).1.timer = s.timer - 1)) ∧
    (∀ ev f, (CrossoverActivity.aggStep bs iv s ev).2 = some f →
      (CrossoverActivity.aggStep bs iv s ev).1.batch = [] ∧ 0 < f.length) := by
  refine ⟨fun e => ⟨?_, ?_⟩, ⟨?_, ?_, ?_⟩, fun ev f hf => ?_⟩
  · by_cases hb : bs ≤ s.batch.length + 1 <;> simp [CrossoverActivity.aggStep, hb]
  · by_cases hb : bs ≤ s.batch.length + 1 <;> simp [CrossoverActivity.aggStep, hb]
  · by_cases ht : s.timer ≤ 1
    · by_cases hbt : 0 < s.batch.length <;> simp [CrossoverActivity.aggStep, ht, hbt]
    · simp [CrossoverActivity.aggStep, ht]
  · intro ht
    by_cases hbt : 0 < s.batch.length <;> simp [CrossoverActivity.aggStep, ht, hbt]
  · intro ht
    have ht2 : ¬ s.timer ≤ 1 := by omega
    simp [CrossoverActivity.aggStep, ht2]
  · cases ev with
    | recv e =>
      by_cases hb : bs ≤ s.batch.length + 1 <;>
        simp [CrossoverActivity.aggStep, hb] at hf ⊢
      subst hf
      simp
    | tick =>
      by_cases ht : s.timer ≤ 1
      · by_cases hbt : 0 < s.batch.length <;>
          simp [CrossoverActivity.aggStep, ht, hbt] at hf ⊢
        subst hf
        exact hbt
      · simp [CrossoverActivity.aggStep, ht] at hf

/-- C1 (witness): with `BatchSize = 2` and `FlushInterval = 3`, receiving
an entry into a one-entry batch with 3 timer units left flushes and leaves
the timer at 3 untouched. -/
theorem c1_flush_discipline_witness :
    (CrossoverActivity.aggStep 2 3 { batch := [e1], timer := 3 } (.recv e2)).2.isSome = true ∧
    (CrossoverActivity.aggStep 2 3 { batch := [e1], timer := 3 } (.recv e2)).1.timer = 3 := by
  have h := c1_flush_discipline 2 3 { batch := [e1], timer := 3 }
  exact ⟨(h.1 e2).1.mpr (by decide), (h.1 e2).2⟩

/-! ### C2 — the producer-side enqueue never waits -/

/-- C2: the enqueue step of `ServeHTTP` is a total function of the queue
state: below capacity the entry is appended and there is no drop; at (or
beyond) capacity the queue is unchanged and the drop is logged; in both
cases the request is forwarded to the downstream handler. -/
theorem c2_enqueue_never_blocks (bufferSize : Nat)
    (q : List CrossoverActivity.activityRequestDto)
    (e : CrossoverActivity.activityRequestDto) :
    (q.length < bufferSize →
      (CrossoverActivity.serveEnqueue bufferSize q e).queue = q ++ [e] ∧
      (CrossoverActivity.serveEnqueue bufferSize q e).droppedLogged = false) ∧
    (bufferSize ≤ q.length →
      (CrossoverActivity.serveEnqueue bufferSize q e).queue = q ∧
      (CrossoverActivity.serveEnqueue bufferSize q e).droppedLogged = true) ∧
    (CrossoverActivity.serveEnqueue bufferSize q e).forwarded = true := by
  refine ⟨fun h => ?_, fun h => ?_, ?_⟩
  · simp [CrossoverActivity.serveEnqueue, CrossoverActivity.sendNonBlocking, h]
  · have h2 : ¬ q.length < bufferSize := Nat.not_lt.mpr h
    simp [CrossoverActivity.serveEnqueue, CrossoverActivity.sendNonBlocking, h2]
  · rfl

/-- C2 (witness): a queue already holding `BufferSize = 1` entries drops
the next entry, keeps the queue, and still forwards the request. -/
theorem c2_enqueue_never_blocks_witness :
    (1 : Nat) ≤ ([e1] : List CrossoverActivity.activityRequestDto).length ∧
    (CrossoverActivity.serveEnqueue 1 [e1] e2).queue = [e1] ∧
    (CrossoverActivity.serveEnqueue 1 [e1] e2).droppedLogged = true ∧
    (CrossoverActivity.serveEnqueue 1 [e1] e2).forwarded = true := by
  have h := c2_enqueue_never_blocks 1 [e1] e2
  exact ⟨by decide, (h.2.1 (by decide)).1, (h.2.1 (by decide)).2, h.2.2⟩

/-! ### C3 — bounded body interception -/

/-- C3: the two copies built by `ServeHTTP` from the pooled buffer hold
the same bytes; a body shorter than the 2 MiB ceiling reaches the
downstream handler unchanged; a body of at least the ceiling length is
truncated to exactly the first `MaxRequestBodySize` bytes in both the
downstream and the telemetry copy. -/
theorem c3_body_interception (body : List Nat) :
    (CrossoverActivity.interceptBody body).telemetryBody =
      (CrossoverActivity.interceptBody body).downstreamBody ∧
    (body.length < CrossoverActivity.MaxRequestBodySize →
      (CrossoverActivity.interceptBody body).downstreamBody = body) ∧
    (CrossoverActivity.MaxRequestBodySize ≤ body.length →
      (CrossoverActivity.interceptBody body).downstreamBody =
        body.take CrossoverActivity.MaxRequestBodySize ∧
      (CrossoverActivity.interceptBody body).downstreamBody.length =
        CrossoverActivity.MaxRequestBodySize ∧
      (CrossoverActivity.interceptBody body).telemetryBody.length =
        CrossoverActivity.MaxRequestBodySize) := by
  refine ⟨rfl, fun h => ?_, fun h => ?_⟩
  · simp [CrossoverActivity.interceptBody, CrossoverActivity.copyN, h]
  · have h2 : ¬ body.length < CrossoverActivity.MaxRequestBodySize := Nat.not_lt.mpr h
    refine ⟨?_, ?_, ?_⟩ <;>
      simp [CrossoverActivity.interceptBody, CrossoverActivity.copyN, h2,
        List.length_take, Nat.min_eq_left h]

/-- C3 (witness): a 3-byte body passes through unchanged; a body of
exactly the ceiling length is cut to exactly the ceiling length. -/
theorem c3_body_interception_witness :
    ([1, 2, 3] : List Nat).length < CrossoverActivity.MaxRequestBodySize ∧
    (CrossoverActivity.interceptBody [1, 2, 3]).downstreamBody = [1, 2, 3] ∧
    CrossoverActivity.MaxRequestBodySize ≤ bigBody.length ∧
    (CrossoverActivity.interceptBody bigBody).downstreamBody.length =
      CrossoverActivity.MaxRequestBodySize := by
  have hs : ([1, 2, 3] : List Nat).length < CrossoverActivity.MaxRequestBodySize := by
    decide
  have hb : CrossoverActivity.MaxRequestBodySize ≤ bigBody.length := by
    simp [bigBody]
  exact ⟨hs, (c3_body_interception [1, 2, 3]).2.1 hs, hb,
    ((c3_body_interception bigBody).2.2 hb).2.1⟩

/-! ### C4 — rate-limit admission at the boundary -/

/-- C4 (counterexample): a user cached with `planLimit = 5, usage = 5` is
not rejected on the next request: the guard is `usage > planLimit`, so the
request is forwarded and the usage becomes 6, contradicting the claimed
429 rejection. -/
theorem c4_usage_five_of_five_admitted :
    (Crossover.ServeHTTP none [(uid0, { planLimit := 5, usage := 5 })] path0).2 =
      Crossover.ServeOutcome.forwarded ∧
    Crossover.lookupUser
        (Crossover.ServeHTTP none [(uid0, { planLimit := 5, usage := 5 })] path0).1 uid0 =
      some { planLimit := 5, usage := 6 } := by decide

/-- C4 (amended): with `planLimit = 5`, a request is rejected with a 429
response (and the map left unchanged) only once `usage` exceeds the limit,
i.e. at `usage = 6`; at `usage = 5` the request is still admitted and the
usage becomes 6; at `usage = 4` the request is admitted and the usage
becomes 5. -/
theorem c4_rate_limit_amended :
    Crossover.ServeHTTP none [(uid0, { planLimit := 5, usage := 6 })] path0 =
      ([(uid0, { planLimit := 5, usage := 6 })],
        .rejected 429 "too many requests") ∧
    Crossover.ServeHTTP none [(uid0, { planLimit := 5, usage := 4 })] path0 =
      ([(uid0, { planLimit := 5, usage := 5 })], .forwarded) ∧
    Crossover.ServeHTTP none [(uid0, { planLimit := 5, usage := 5 })] path0 =
      ([(uid0, { planLimit := 5, usage := 6 })], .forwarded) := by decide

/-! ### C5 — the sub-request counter -/

/-- C5: a non-JSON content type yields count 1 in both revisions without
any read of the body; with content type `application/json`, a body that
decodes as an array yields its length in both revisions, and a body that
fails to decode as an array yields 1 in the later revision and 0 in the
earlier revision. -/
theorem c5_request_count (contentType : String) (body : List Char) :
    (contentType ≠ "application/json" →
      CrossoverActivity.requestCount contentType body =
        { count := 1, readBody := false, drained := false, closed := false } ∧
      Crossover.requestCount contentType body =
        { count := 1, readBody := false, drained := false, closed := false }) ∧
    (∀ n, decodeJsonArrayLen body = some n →
      (CrossoverActivity.requestCount "application/json" body).count = n ∧
      (Crossover.requestCount "application/json" body).count = n) ∧
    (decodeJsonArrayLen body = none →
      (CrossoverActivity.requestCount "application/json" body).count = 1 ∧
      (Crossover.requestCount "application/json" body).count = 0) := by
  refine ⟨fun h => ?_, fun n h => ?_, fun h => ?_⟩ <;>
    simp [CrossoverActivity.requestCount, Crossover.requestCount, h]

/-- C5 (witness): `text/plain` with the example array body counts 1 and
never reads the body; `application/json` with
`[{"a":1},{"b":2},{"c":3}]` counts 3 in both revisions; the non-array
body `{"a":1}` counts 1 in the later and 0 in the earlier revision. -/
theorem c5_request_count_witness :
    "text/plain" ≠ "application/json" ∧
    CrossoverActivity.requestCount "text/plain" jsonExample3 =
      { count := 1, readBody := false, drained := false, closed := false } ∧
    decodeJsonArrayLen jsonExample3 = some 3 ∧
    (CrossoverActivity.requestCount "application/json" jsonExample3).count = 3 ∧
    (Crossover.requestCount "application/json" jsonExample3).count = 3 ∧
    decodeJsonArrayLen jsonSingleObject = none ∧
    (CrossoverActivity.requestCount "application/json" jsonSingleObject).count = 1 ∧
    (Crossover.requestCount "application/json" jsonSingleObject).count = 0 := by
  have h1 : "text/plain" ≠ "application/json" := by decide
  have h3 : decodeJsonArrayLen jsonExample3 = some 3 := by decide
  have h5 : decodeJsonArrayLen jsonSingleObject = none := by decide
  refine ⟨h1, ((c5_request_count "text/plain" jsonExample3).1 h1).1, h3,
    ((c5_request_count "text/plain" jsonExample3).2.1 3 h3).1,
    ((c5_request_count "text/plain" jsonExample3).2.1 3 h3).2, h5,
    ((c5_request_count "text/plain" jsonSingleObject).2.2 h5).1,
    ((c5_request_count "text/plain" jsonSingleObject).2.2 h5).2⟩

/-! ### C6 — malformed identifier handling -/

/-- C6: on a path with no match of the default pattern, `requestKey`
returns `""` and the slice `requestId[10:]` is out of range, a Go runtime
panic — no 400 response is written; only the other half of the claim
holds: a matched 42-character value whose tail fails `uuid.Parse` is
answered with 400 `invalid requestId` and not forwarded. -/
theorem c6_no_match_not_rejected :
    Crossover.ServeHTTP none [] "/health" =
      ([], Crossover.ServeOutcome.sliceOutOfRange) ∧
    Crossover.ServeHTTP none [] "/v1/aaaaaaaaaazzzzzzzzzzzzzzzzzzzzzzzzzzzzzzzz" =
      ([], Crossover.ServeOutcome.rejected 400 "invalid requestId") := by decide

/-! ### C7 — construction-time validation and defaults -/

/-- C7: `New` returns an error (and no handler) exactly when `APIKey`,
`Pattern` or `RemoteAddress` is empty; any handler it returns carries
`BufferSize`, `BatchSize` and `FlushInterval` with zero values replaced by
the defaults 100000, 20 and 2. -/
theorem c7_new_validation_and_defaults (c : CrossoverActivity.Config) :
    (CrossoverActivity.newIsError (CrossoverActivity.New c) = true ↔
      (c.APIKey.length = 0 ∨ c.Pattern.length = 0 ∨ c.RemoteAddress.length = 0)) ∧
    (∀ a, CrossoverActivity.New c = .ok a →
      a.bufferSize =
        (if c.BufferSize = 0 then CrossoverActivity.DefaultLogBufferSize
         else c.BufferSize) ∧
      a.batchSize =
        (if c.BatchSize = 0 then CrossoverActivity.DefaultMaxBatchSize
         else c.BatchSize) ∧
      a.flushInterval =
        (if c.FlushInterval = 0 then CrossoverActivity.DefaultBatchFlushInterval
         else c.FlushInterval) ∧
      a.pattern = c.Pattern ∧ a.remoteAddress = c.RemoteAddress ∧
      a.apiKey = c.APIKey) := by
  by_cases h1 : c.APIKey.length = 0
  · constructor
    · simp [CrossoverActivity.New, CrossoverActivity.newIsError, h1]
    · intro a h
      simp [CrossoverActivity.New, h1] at h
  · by_cases h2 : c.Pattern.length = 0
    · constructor
      · simp [CrossoverActivity.New, CrossoverActivity.newIsError, h1, h2]
      · intro a h
        simp [CrossoverActivity.New, h1, h2] at h
    · by_cases h3 : c.RemoteAddress.length = 0
      · constructor
        · simp [CrossoverActivity.New, CrossoverActivity.newIsError, h1, h2, h3]
        · intro a h
          simp [CrossoverActivity.New, h1, h2, h3] at h
      · constructor
        · simp [CrossoverActivity.New, CrossoverActivity.newIsError, h1, h2, h3]
        · intro a h
          simp [CrossoverActivity.New, h1, h2, h3] at h
          subst h
          exact ⟨rfl, rfl, rfl, rfl, rfl, rfl⟩

/-- C7 (witness): the all-defaults configuration with the three required
strings set constructs a handler with buffer 100000, batch 20 and
interval 2. -/
theorem c7_new_validation_and_defaults_witness :
    CrossoverActivity.New cfg0 = .ok act0 ∧
    act0.bufferSize = CrossoverActivity.DefaultLogBufferSize ∧
    act0.batchSize = CrossoverActivity.DefaultMaxBatchSize ∧
    act0.flushInterval = CrossoverActivity.DefaultBatchFlushInterval ∧
    CrossoverActivity.newIsError (CrossoverActivity.New cfg0) = false := by
  have hok : CrossoverActivity.New cfg0 = .ok act0 := by rfl
  have h := (c7_new_validation_and_defaults cfg0).2 act0 hok
  exact ⟨hok, h.1, h.2.1, h.2.2.1, by rw [hok]; rfl⟩

/-! ### C8 — body drained and closed after counting -/

/-- C8: in the earlier revision of `requestCount` (`plugin.go`), an
`application/json` body that fails to decode as an array is neither
drained nor closed — the function returns 0 before the
`io.Copy(io.Discard, req.Body)` and `req.Body.Close()` statements run,
although the decoder had already read from the body; the later revision
drains and closes the same body. -/
theorem c8_earlier_revision_skips_drain_close :
    (Crossover.requestCount "application/json" undecodableBody).readBody = true ∧
    (Crossover.requestCount "application/json" undecodableBody).drained = false ∧
    (Crossover.requestCount "application/json" undecodableBody).closed = false ∧
    (CrossoverActivity.requestCount "application/json" undecodableBody).drained = true ∧
    (CrossoverActivity.requestCount "application/json" undecodableBody).closed = true := by
  decide

/-! ### C9 — the plan refresh only overwrites the plan limit -/

/-- C9: a successful `RateLimitPlan` run for a user already in the map
replaces exactly that user's `planLimit` with the fetched value, keeps the
user's `usage`, and leaves every other user's record untouched. -/
theorem c9_plan_refresh_frame (m : Crossover.UserMap) (uid : String)
    (v : Crossover.limitUsage) (lim : Int)
    (hp : Crossover.lookupUser m uid = some v) :
    Crossover.lookupUser (Crossover.RateLimitPlan (some lim) m uid) uid =
      some { planLimit := lim, usage := v.usage } ∧
    (∀ u, u ≠ uid →
      Crossover.lookupUser (Crossover.RateLimitPlan (some lim) m uid) u =
        Crossover.lookupUser m u) := by
  constructor
  · simp [Crossover.RateLimitPlan, hp, lookupUser_insertUser_self]
  · intro u hu
    simp [Crossover.RateLimitPlan, hp, lookupUser_insertUser_ne _ _ _ _ hu]

/-- C9 (witness): refreshing user `u` of `m1` to plan limit 9 keeps its
usage 7 and leaves user `w` untouched. -/
theorem c9_plan_refresh_frame_witness :
    Crossover.lookupUser (Crossover.RateLimitPlan (some 9) m1 "u") "u" =
      some { planLimit := 9, usage := 7 } ∧
    Crossover.lookupUser (Crossover.RateLimitPlan (some 9) m1 "u") "w" =
      some { planLimit := 1, usage := 1 } := by
  have h := c9_plan_refresh_frame m1 "u" { planLimit := 3, usage := 7 } 9 (by decide)
  refine ⟨h.1, ?_⟩
  rw [h.2 "w" (by decide)]
  decide

/-! ### C10 — first request of an unknown user is never limited -/

/-- C10: a request whose well-formed identifier names a user absent from
the map triggers the synchronous plan fetch and is then forwarded with no
admission check and no usage increment: on a successful fetch the fresh
record has `usage = 0`, so the first observed request cannot be rejected
with 429. -/
theorem c10_unknown_user_admitted (fetched : Option Int) (m : Crossover.UserMap)
    (path userId : String)
    (hlen : 10 ≤ (Crossover.requestKey path).length)
    (hparse : Crossover.uuidParse ((Crossover.requestKey path).drop 10) = some userId)
    (hmiss : Crossover.lookupUser m userId = none) :
    (Crossover.ServeHTTP fetched m path).2 = Crossover.ServeOutcome.forwarded ∧
    (Crossover.ServeHTTP fetched m path).1 = Crossover.RateLimitPlan fetched m userId ∧
    (∀ lim, fetched = some lim →
      Crossover.lookupUser (Crossover.ServeHTTP fetched m path).1 userId =
        some { planLimit := lim, usage := 0 }) := by
  have hlen2 : ¬ (Crossover.requestKey path).length < 10 := Nat.not_lt.mpr hlen
  refine ⟨?_, ?_, ?_⟩
  · simp [Crossover.ServeHTTP, hlen2, hparse, hmiss]
  · simp [Crossover.ServeHTTP, hlen2, hparse, hmiss]
  · intro lim hl
    subst hl
    simp [Crossover.ServeHTTP, hlen2, hparse, hmiss, Crossover.RateLimitPlan,
      lookupUser_insertUser_self]

/-- C10 (witness): on `path0` with an empty map and a successful fetch of
plan limit 7, the request is forwarded and the new record for `uid0` is
`usage = 0, planLimit = 7`. -/
theorem c10_unknown_user_admitted_witness :
    10 ≤ (Crossover.requestKey path0).length ∧
    (Crossover.ServeHTTP (some 7) [] path0).2 = Crossover.ServeOutcome.forwarded ∧
    Crossover.lookupUser (Crossover.ServeHTTP (some 7) [] path0).1 uid0 =
      some { planLimit := 7, usage := 0 } := by
  have hl : 10 ≤ (Crossover.requestKey path0).length := by decide
  have hp : Crossover.uuidParse ((Crossover.requestKey path0).drop 10) = some uid0 := by
    decide
  have h := c10_unknown_user_admitted (some 7) [] path0 uid0 hl hp rfl
  exact ⟨hl, h.1, h.2.2 7 rfl⟩
